import Mathlib

/-!
Verification of the request ledger of the easier-requests library
(`src/requester.js`, version 0.0.3).

The `Requester` class owns three string-keyed tables implemented as plain
JS objects (`_cachedResponses`, `_cachedErrors`, `_inFlightRequests`), a
serial counter (`_idSerialNumber`) and an option set (`_options`, with the
pristine copy `_defaultOptions`).  We embed each JS object as an
association list from keys to values.  A JS table whose stored values may
themselves be `undefined` is embedded as a map to `Option V`: a key bound
to `none` models a key that is present with value `undefined` (the
"no payload" / "no error" marker), while an absent key models a key that
is not in the object at all.  This keeps the two distinct JS observations
apart: the `in` operator sees key presence, while indexing (`obj[id]`)
yields `undefined` for both an absent key and a stored `undefined`.

The asynchronous dispatch method `_request` is split at its suspension
point into two atomic steps, exactly following the source: `requestPre`
(the synchronous part up to and including registering the in-flight
promise) and `settle` (the `then`/`catch` handler followed by the
resumption after `await`).  Thrown JS errors are modelled with `Except`
(or an `Option` of the thrown error), always paired with the state the
code leaves behind.
-/

/-- Association-list embedding of a plain JS object used as a
string-keyed table. -/
abbrev JMap (α : Type) := List (String × α)

/-- Reading a key of a JS object: `some v` when the key is present (bound
to `v`), `none` when absent. -/
def JMap.lookup {α : Type} : JMap α → String → Option α
  | [], _ => none
  | (k', v) :: rest, k => if k' = k then some v else JMap.lookup rest k

/-- Property assignment `obj[k] = v`: overwrite in place when the key is
present, append otherwise (JS objects keep first-insertion order). -/
def JMap.set {α : Type} : JMap α → String → α → JMap α
  | [], k, v => [(k, v)]
  | (k', v') :: rest, k, v =>
    if k' = k then (k, v) :: rest else (k', v') :: JMap.set rest k v

/-- Property deletion `delete obj[k]`. -/
def JMap.del {α : Type} (m : JMap α) (k : String) : JMap α :=
  m.filter (fun p => p.1 != k)

/-- The JS `in` operator: key presence. -/
def JMap.contains {α : Type} (m : JMap α) (k : String) : Bool :=
  (m.lookup k).isSome

/-- Indexing `obj[k]` on a table whose stored values may be `undefined`:
both an absent key and a key bound to the `undefined` marker read back as
`undefined` (`none`). -/
def JMap.jsGet {α : Type} (m : JMap (Option α)) (k : String) : Option α :=
  (m.lookup k).join

/-- Truthiness of `obj.k` for a boolean-valued option object: an absent
key reads as `undefined`, which is falsy. -/
def JMap.truthy (m : JMap Bool) (k : String) : Bool :=
  (m.lookup k).getD false

/-- Shallow merge `Object.assign(target, patch)`: assign every own key of
`patch` into `target`, in order. -/
def JMap.assign {α : Type} (target patch : JMap α) : JMap α :=
  patch.foldl (fun m kv => m.set kv.1 kv.2) target

/-- The caller-visible failures of the library: the four structural
errors of `src/errors.js`, the `TypeError` raised by `Object.keys` on a
null/absent argument, and a propagated transport failure carrying the
transport's failure value. -/
inductive JSError (V : Type) where
  | idInUse
  | requestNotComplete
  | invalidRequest
  | unbalancedParameters
  | typeError
  | transport (e : V)

/-- Outcome of the external transport (axios): a success payload or a
failure value.  Axios always settles with a proper value, never with
`undefined`. -/
inductive TransportResult (V : Type) where
  | success (v : V)
  | failure (e : V)

/-- Heap shape of the option subsystem.  `_options` either aliases the
very object `_defaultOptions` points to (`optsSame = true`, the situation
`setOptions({})` creates via `this._options = this._defaultOptions`) or
points to a separate object whose contents are `optsSep`. -/
structure OptionsHeap where
  defaults : JMap Bool
  optsSame : Bool
  optsSep : JMap Bool

/-- Contents of the object `this._options` currently points to. -/
def OptionsHeap.current (h : OptionsHeap) : JMap Bool :=
  if h.optsSame then h.defaults else h.optsSep

/-- State of one `Requester` instance: the three tables, the ID serial
counter and the option heap.  Field names drop the `_` of the source
(`_cachedResponses`, `_cachedErrors`, `_inFlightRequests`,
`_idSerialNumber`).  The in-flight table stores promises, of which only
key presence is ever observed, so its value type is `Unit`. -/
structure Requester (V : Type) where
  cachedResponses : JMap (Option V)
  cachedErrors : JMap (Option V)
  inFlightRequests : JMap Unit
  idSerialNumber : Nat
  optHeap : OptionsHeap

/-- The constructor: empty tables, serial number 0, and
`_options = {...this._defaultOptions}` — a copy (no aliasing) with the
documented default `throwOnFailure: true`. -/
def Requester.init (V : Type) : Requester V :=
  { cachedResponses := []
    cachedErrors := []
    inFlightRequests := []
    idSerialNumber := 0
    optHeap :=
      { defaults := [("throwOnFailure", true)]
        optsSame := false
        optsSep := [("throwOnFailure", true)] } }

variable {V : Type}

/-- The read `caller._options.throwOnFailure` performed by the `catch`
handler. -/
def Requester.throwOnFailure (s : Requester V) : Bool :=
  s.optHeap.current.truthy "throwOnFailure"

/-- Method `createUniqueID(prefix = '')`: increment the serial counter,
then return "prefix#serial#timestamp".  The wall-clock reading
`Date.now()` is passed in as the argument `now`. -/
def Requester.createUniqueID (pfx : String) (now : Nat) (s : Requester V) :
    String × Requester V :=
  let s' := { s with idSerialNumber := s.idSerialNumber + 1 }
  (pfx ++ "#" ++ Nat.repr s'.idSerialNumber ++ "#" ++ Nat.repr now, s')

/-- The accumulation loop of `_wrapParams`:
`for (let i = 0; i < params.length; i += 2) parameters[params[i]] = params[i + 1]`. -/
def wrapLoop : List String → JMap String → JMap String
  | [], m => m
  | [_], m => m
  | k :: v :: rest, m => wrapLoop rest (m.set k v)

/-- Method `_wrapParams` in the array case: an odd-length flat token list
throws `UnbalancedParametersError`; otherwise the tokens are gathered
pairwise into a params object. -/
def Requester.wrapParams (V : Type) (params : List String) :
    Except (JSError V) (JMap String) :=
  if params.length % 2 != 0 then
    .error .unbalancedParameters
  else
    .ok (wrapLoop params [])

/-- Synchronous part of `_request` up to the suspension point: throw
`IDInUseError` when `id` is a key of `_cachedResponses` or of
`_inFlightRequests` (leaving the state untouched), otherwise register the
in-flight promise under `id`. -/
def Requester.requestPre (id : String) (s : Requester V) :
    Except (JSError V) Unit × Requester V :=
  if s.cachedResponses.contains id || s.inFlightRequests.contains id then
    (.error .idInUse, s)
  else
    (.ok (), { s with inFlightRequests := s.inFlightRequests.set id () })

/-- Settlement of the transport: the `then`/`catch` handler followed by
the code after `await`.  On success the payload is stored and the error
slot is set to `undefined`; on failure the response slot is set to
`undefined` and the failure value stored, and when
`caller._options.throwOnFailure` is truthy the handler deletes the
in-flight entry and rethrows, so the post-`await` deletion is skipped and
the awaiting `_request` call fails.  The first component is the error the
awaiting call throws (if any); the last component counts how many
`delete caller._inFlightRequests[id]` statements actually executed. -/
def Requester.settle (id : String) (r : TransportResult V) (s : Requester V) :
    Option (JSError V) × Requester V × Nat :=
  match r with
  | .success v =>
    let s1 := { s with cachedResponses := s.cachedResponses.set id (some v),
                       cachedErrors := s.cachedErrors.set id none }
    (none, { s1 with inFlightRequests := s1.inFlightRequests.del id }, 1)
  | .failure e =>
    let s1 := { s with cachedResponses := s.cachedResponses.set id none,
                       cachedErrors := s.cachedErrors.set id (some e) }
    if s1.throwOnFailure then
      (some (.transport e), { s1 with inFlightRequests := s1.inFlightRequests.del id }, 1)
    else
      (none, { s1 with inFlightRequests := s1.inFlightRequests.del id }, 1)

/-- A whole `_request` call with a given transport outcome: the
registration phase followed by settlement. -/
def Requester.requestRun (id : String) (outcome : TransportResult V) (s : Requester V) :
    Except (JSError V) Unit × Requester V × Nat :=
  match Requester.requestPre id s with
  | (.error e, s') => (.error e, s', 0)
  | (.ok _, s') =>
    match Requester.settle id outcome s' with
    | (some e, s'', d) => (.error e, s'', d)
    | (none, s'', d) => (.ok (), s'', d)

/-- Synchronous phase of the per-verb entry point `get(url, id, ...params)`:
`_wrapParams` runs first (while building the argument list), then the
registration phase of `_request`.  The URL takes no part in the ledger
state. -/
def Requester.getPre (_url id : String) (params : List String) (s : Requester V) :
    Except (JSError V) Unit × Requester V :=
  match Requester.wrapParams V params with
  | .error e => (.error e, s)
  | .ok _ => Requester.requestPre id s

/-- Method `_responseErrorChecker`, the precondition check shared by both
accessors, written exactly as in the source (the second test repeats the
in-flight conjunct). -/
def Requester.responseErrorChecker (id : String) (s : Requester V) :
    Option (JSError V) :=
  if s.inFlightRequests.contains id then
    some .requestNotComplete
  else if !(s.cachedResponses.contains id) && !(s.inFlightRequests.contains id) then
    some .invalidRequest
  else
    none

/-- Method `response(id)`: after the precondition check, an `undefined`
read of `_cachedResponses[id]` returns `undefined` without deleting
anything; otherwise the payload is returned and `id` is deleted from both
caches. -/
def Requester.response (id : String) (s : Requester V) :
    Except (JSError V) (Option V) × Requester V :=
  match Requester.responseErrorChecker id s with
  | some e => (.error e, s)
  | none =>
    match s.cachedResponses.jsGet id with
    | none => (.ok none, s)
    | some v =>
      (.ok (some v),
        { s with cachedErrors := s.cachedErrors.del id,
                 cachedResponses := s.cachedResponses.del id })

/-- Method `error(id)`: symmetric to `response`, reading
`_cachedErrors[id]`. -/
def Requester.error (id : String) (s : Requester V) :
    Except (JSError V) (Option V) × Requester V :=
  match Requester.responseErrorChecker id s with
  | some e => (.error e, s)
  | none =>
    match s.cachedErrors.jsGet id with
    | none => (.ok none, s)
    | some v =>
      (.ok (some v),
        { s with cachedErrors := s.cachedErrors.del id,
                 cachedResponses := s.cachedResponses.del id })

/-- Method `setOptions(options)`.  The argument is `none` for a
null/absent argument and `some patch` for an object.  The source first
evaluates `Object.keys(options).length`, which per ECMAScript throws a
`TypeError` when `options` is `null` or `undefined` (the `options !== null`
test further down is unreachable for null).  An empty object makes
`this._options` alias `this._defaultOptions`; a non-empty one is
`Object.assign`ed into whichever object `this._options` currently points
to.  A spread copy of the resulting options is returned. -/
def Requester.setOptions (options : Option (JMap Bool)) (s : Requester V) :
    Except (JSError V) (JMap Bool) × Requester V :=
  match options with
  | none => (.error .typeError, s)
  | some opts =>
    if opts.isEmpty then
      let h := { s.optHeap with optsSame := true }
      (.ok h.current, { s with optHeap := h })
    else
      let h :=
        if s.optHeap.optsSame then
          { s.optHeap with defaults := s.optHeap.defaults.assign opts }
        else
          { s.optHeap with optsSep := s.optHeap.optsSep.assign opts }
      (.ok h.current, { s with optHeap := h })

/-- One observable atomic step on a `Requester` instance: the dispatch
registration, a transport settlement, either accessor, ID generation, or
an options call. -/
inductive Op (V : Type) where
  | dispatchOp (id : String)
  | settleOp (id : String) (r : TransportResult V)
  | responseOp (id : String)
  | errorOp (id : String)
  | createIDOp (pfx : String) (now : Nat)
  | setOptionsOp (options : Option (JMap Bool))

/-- The state reached after one observable step (thrown errors leave the
state the code left behind). -/
def applyOp : Op V → Requester V → Requester V
  | .dispatchOp id, s => (Requester.requestPre id s).2
  | .settleOp id r, s => (Requester.settle id r s).2.1
  | .responseOp id, s => (Requester.response id s).2
  | .errorOp id, s => (Requester.error id s).2
  | .createIDOp pfx now, s => (Requester.createUniqueID pfx now s).2
  | .setOptionsOp o, s => (Requester.setOptions o s).2

/-- Run a sequence of observable steps from a starting state. -/
def runOps (ops : List (Op V)) (s : Requester V) : Requester V :=
  ops.foldl (fun s op => applyOp op s) s

/-- The implicit alignment invariant: the success and failure caches hold
exactly the same set of identifier keys. -/
def keysAligned (s : Requester V) : Prop :=
  ∀ k, s.cachedResponses.contains k = s.cachedErrors.contains k

/-- Pairing of a flat token list, two by two (the view of the
`_wrapParams` loop): the name/value pairs in order. -/
def pairs : List String → List (String × String)
  | [] => []
  | [_] => []
  | a :: b :: rest => (a, b) :: pairs rest

/-- Decimal value of a digit character; inverse of `Nat.digitChar` on
decimal digits (proof helper). -/
def digitVal (c : Char) : Nat :=
  if c = '0' then 0 else
  if c = '1' then 1 else
  if c = '2' then 2 else
  if c = '3' then 3 else
  if c = '4' then 4 else
  if c = '5' then 5 else
  if c = '6' then 6 else
  if c = '7' then 7 else
  if c = '8' then 8 else
  9

/-- Concrete state: a fresh instance after one successful dispatch of a
request under identifier "x" with payload 42. -/
def sSucc : Requester Nat :=
  (Requester.requestRun "x" (TransportResult.success 42) (Requester.init Nat)).2.1

/-- Concrete state: a fresh instance after `setOptions({throwOnFailure: false})`. -/
def sNoThrow : Requester Nat :=
  (Requester.setOptions (some [("throwOnFailure", false)]) (Requester.init Nat)).2

/-- Concrete state: a fresh instance after `setOptions({})` followed by
`setOptions({throwOnFailure: false})` — the merge lands on the object
`_defaultOptions` points to, because the reset made `_options` alias it. -/
def sOptTrace : Requester Nat :=
  (Requester.setOptions (some [("throwOnFailure", false)])
    ((Requester.setOptions (some ([] : JMap Bool)) (Requester.init Nat)).2)).2

/-- Concrete state: a fresh instance with a request registered in flight
under identifier "x". -/
def sInFlight : Requester Nat :=
  (Requester.requestPre "x" (Requester.init Nat)).2

/-- Lookup after assignment: the assigned key reads the new value, other
keys are unaffected. -/
theorem JMap.lookup_set {α : Type} (m : JMap α) (k k' : String) (v : α) :
    (m.set k v).lookup k' = if k = k' then some v else m.lookup k' := by
  induction m with
  | nil => simp [JMap.set, JMap.lookup]
  | cons hd tl ih =>
    obtain ⟨k₀, v₀⟩ := hd
    simp only [JMap.set]
    by_cases h₀ : k₀ = k
    · subst h₀
      by_cases hkk : k₀ = k'
      · subst hkk; simp [JMap.lookup]
      · simp [JMap.lookup, hkk]
    · simp only [if_neg h₀, JMap.lookup]
      by_cases h₁ : k₀ = k'
      · subst h₁
        have hk : ¬(k = k₀) := fun h => h₀ h.symm
        simp [hk]
      · simp [h₁, ih]

/-- Lookup after deletion: the deleted key is absent, other keys are
unaffected. -/
theorem JMap.lookup_del {α : Type} (m : JMap α) (k k' : String) :
    (m.del k).lookup k' = if k = k' then none else m.lookup k' := by
  induction m with
  | nil => simp [JMap.del, JMap.lookup]
  | cons hd tl ih =>
    obtain ⟨k₀, v₀⟩ := hd
    simp only [JMap.del, List.filter_cons] at *
    by_cases h₀ : k₀ = k
    · subst h₀
      simp only [bne_self_eq_false, Bool.false_eq_true, if_false, ih, JMap.lookup]
      by_cases hkk : k₀ = k'
      · subst hkk; simp
      · simp [hkk]
    · have : (k₀ != k) = true := bne_iff_ne.mpr h₀
      simp only [this, if_true, JMap.lookup]
      by_cases h₁ : k₀ = k'
      · subst h₁
        have hk' : ¬(k = k₀) := fun h => h₀ h.symm
        simp [hk']
      · simp [h₁, ih]

/-- Key presence after assignment. -/
theorem JMap.contains_set {α : Type} (m : JMap α) (k k' : String) (v : α) :
    (m.set k v).contains k' = if k = k' then true else m.contains k' := by
  simp only [JMap.contains, JMap.lookup_set]
  by_cases h : k = k' <;> simp [h]

/-- Key presence after deletion. -/
theorem JMap.contains_del {α : Type} (m : JMap α) (k k' : String) :
    (m.del k).contains k' = if k = k' then false else m.contains k' := by
  simp only [JMap.contains, JMap.lookup_del]
  by_cases h : k = k' <;> simp [h]

/-- One observable step preserves the key alignment of the two caches:
each operation either writes both caches at the same key, deletes the
same key from both, or touches neither. -/
theorem keysAligned_applyOp (op : Op V) (s : Requester V) (h : keysAligned s) :
    keysAligned (applyOp op s) := by
  cases op with
  | dispatchOp id =>
    intro k
    simp only [applyOp, Requester.requestPre]
    split <;> exact h k
  | settleOp id r =>
    intro k
    cases r with
    | success v =>
      simp only [applyOp, Requester.settle, JMap.contains_set]
      by_cases hik : id = k <;> simp [hik, h k]
    | failure e =>
      simp only [applyOp, Requester.settle]
      split <;>
        (simp only [JMap.contains_set]
         by_cases hik : id = k <;> simp [hik, h k])
  | responseOp id =>
    intro k
    simp only [applyOp, Requester.response]
    cases hc : Requester.responseErrorChecker id s with
    | some e => simpa [hc] using h k
    | none =>
      cases hg : s.cachedResponses.jsGet id with
      | none => simpa [hc, hg] using h k
      | some v =>
        simp only [hc, hg, JMap.contains_del]
        by_cases hik : id = k <;> simp [hik, h k]
  | errorOp id =>
    intro k
    simp only [applyOp, Requester.error]
    cases hc : Requester.responseErrorChecker id s with
    | some e => simpa [hc] using h k
    | none =>
      cases hg : s.cachedErrors.jsGet id with
      | none => simpa [hc, hg] using h k
      | some v =>
        simp only [hc, hg, JMap.contains_del]
        by_cases hik : id = k <;> simp [hik, h k]
  | createIDOp pfx now =>
    intro k
    exact h k
  | setOptionsOp o =>
    intro k
    cases o with
    | none => exact h k
    | some p =>
      simp only [applyOp, Requester.setOptions]
      split <;> exact h k

/-- Running any sequence of observable steps preserves key alignment. -/
theorem keysAligned_runOps (ops : List (Op V)) (s : Requester V)
    (h : keysAligned s) : keysAligned (runOps ops s) := by
  induction ops generalizing s with
  | nil => exact h
  | cons op ops ih => exact ih (applyOp op s) (keysAligned_applyOp op s h)

/-- No observable step ever decreases the ID serial counter (only
`createUniqueID` changes it, by incrementing). -/
theorem idSerialNumber_mono (op : Op V) (s : Requester V) :
    s.idSerialNumber ≤ (applyOp op s).idSerialNumber := by
  cases op with
  | dispatchOp id =>
    simp only [applyOp, Requester.requestPre]
    split <;> simp
  | settleOp id r =>
    cases r with
    | success v => simp [applyOp, Requester.settle]
    | failure e =>
      simp only [applyOp, Requester.settle]
      split <;> simp
  | responseOp id =>
    simp only [applyOp, Requester.response]
    cases hc : Requester.responseErrorChecker id s with
    | some e => simp [hc]
    | none =>
      cases hg : s.cachedResponses.jsGet id with
      | none => simp [hc, hg]
      | some v => simp [hc, hg]
  | errorOp id =>
    simp only [applyOp, Requester.error]
    cases hc : Requester.responseErrorChecker id s with
    | some e => simp [hc]
    | none =>
      cases hg : s.cachedErrors.jsGet id with
      | none => simp [hc, hg]
      | some v => simp [hc, hg]
  | createIDOp pfx now =>
    simp [applyOp, Requester.createUniqueID]
  | setOptionsOp o =>
    cases o with
    | none => simp [applyOp, Requester.setOptions]
    | some p =>
      simp only [applyOp, Requester.setOptions]
      split <;> simp

/-- The character produced for one digit is never the delimiter. -/
theorem digitChar_ne_hash (n : Nat) : Nat.digitChar n ≠ '#' := by
  intro h
  rcases Nat.lt_or_ge n 16 with hlt | hge
  · interval_cases n <;> exact absurd h (by decide)
  · have hstar : Nat.digitChar n = '*' := by
      unfold Nat.digitChar
      repeat rw [if_neg (by omega)]
    rw [hstar] at h
    exact absurd h (by decide)

/-- No character produced by the decimal printer core is the delimiter,
provided the accumulator is delimiter-free. -/
theorem toDigitsCore_ne_hash :
    ∀ (f n : Nat) (acc : List Char), (∀ c ∈ acc, c ≠ '#') →
      ∀ c ∈ Nat.toDigitsCore 10 f n acc, c ≠ '#'
  | 0, _, _, hacc => by
    intro c hc
    exact hacc c hc
  | f + 1, n, acc, hacc => by
    simp only [Nat.toDigitsCore]
    split
    · intro c hc
      rcases List.mem_cons.mp hc with h | h
      · subst h; exact digitChar_ne_hash _
      · exact hacc c h
    · refine toDigitsCore_ne_hash f (n / 10) (Nat.digitChar (n % 10) :: acc) ?_
      intro c hc
      rcases List.mem_cons.mp hc with h | h
      · subst h; exact digitChar_ne_hash _
      · exact hacc c h

/-- No character of the decimal representation of a natural number is
the delimiter used by `createUniqueID`. -/
theorem repr_data_ne_hash (n : Nat) : ∀ c ∈ (Nat.repr n).data, c ≠ '#' :=
  toDigitsCore_ne_hash (n + 1) n [] (by intro c hc; cases hc)

/-- With enough fuel, the printer core produces exactly the decimal
digits of a positive number (most significant first) in front of the
accumulator. -/
theorem toDigitsCore_eq_digits :
    ∀ (f n : Nat) (acc : List Char), 0 < n → n < 10 ^ f →
      Nat.toDigitsCore 10 f n acc =
        ((Nat.digits 10 n).map Nat.digitChar).reverse ++ acc
  | 0, n, _, hn, hf => by
    simp only [pow_zero, Nat.lt_one_iff] at hf
    omega
  | f + 1, n, acc, hn, hf => by
    have hdig : Nat.digits 10 n = n % 10 :: Nat.digits 10 (n / 10) :=
      Nat.digits_def' (by norm_num) hn
    simp only [Nat.toDigitsCore]
    split
    · rename_i h
      rw [hdig, h]
      simp
    · rename_i h
      have hn' : 0 < n / 10 := Nat.pos_of_ne_zero h
      have hf' : n / 10 < 10 ^ f := Nat.nat_repr_len_aux n 10 f (by norm_num) hf
      rw [toDigitsCore_eq_digits f (n / 10) _ hn' hf', hdig]
      simp

/-- The decimal string of a positive number, as a character list, is the
reversed digit-character list of its digits. -/
theorem repr_data_eq_digits {n : Nat} (hn : 0 < n) :
    (Nat.repr n).data = ((Nat.digits 10 n).map Nat.digitChar).reverse := by
  have h2 : n < 2 ^ (n + 1) := lt_of_lt_of_le (Nat.lt_two_pow n)
    (Nat.pow_le_pow_right (by norm_num) (Nat.le_succ n))
  have h10 : n < 10 ^ (n + 1) :=
    lt_of_lt_of_le h2 (Nat.pow_le_pow_left (by norm_num) (n + 1))
  have h := toDigitsCore_eq_digits (n + 1) n [] hn h10
  simpa using h

/-- The digit-value function inverts `Nat.digitChar` on decimal digits. -/
theorem digitVal_digitChar {a : Nat} (ha : a < 10) :
    digitVal (Nat.digitChar a) = a := by
  interval_cases a <;> rfl

/-- The digit-character map is injective on decimal digits. -/
theorem digitChar_inj_lt {a b : Nat} (ha : a < 10) (hb : b < 10)
    (h : Nat.digitChar a = Nat.digitChar b) : a = b := by
  have := congrArg digitVal h
  rwa [digitVal_digitChar ha, digitVal_digitChar hb] at this

/-- Mapping `Nat.digitChar` over lists of decimal digits is injective. -/
theorem map_digitChar_inj :
    ∀ (l₁ l₂ : List Nat), (∀ d ∈ l₁, d < 10) → (∀ d ∈ l₂, d < 10) →
      l₁.map Nat.digitChar = l₂.map Nat.digitChar → l₁ = l₂
  | [], [], _, _, _ => rfl
  | [], _ :: _, _, _, h => by simp at h
  | _ :: _, [], _, _, h => by simp at h
  | a :: l₁, b :: l₂, h₁, h₂, h => by
    simp only [List.map_cons, List.cons.injEq] at h
    have hhd : a = b :=
      digitChar_inj_lt (h₁ a (by simp)) (h₂ b (by simp)) h.1
    have htl : l₁ = l₂ :=
      map_digitChar_inj l₁ l₂ (fun d hd => h₁ d (by simp [hd]))
        (fun d hd => h₂ d (by simp [hd])) h.2
    rw [hhd, htl]

/-- Decimal printing is injective on positive naturals. -/
theorem repr_inj_pos {m n : Nat} (hm : 0 < m) (hn : 0 < n)
    (h : Nat.repr m = Nat.repr n) : m = n := by
  have hd : (Nat.repr m).data = (Nat.repr n).data := by rw [h]
  rw [repr_data_eq_digits hm, repr_data_eq_digits hn, List.reverse_inj] at hd
  have hdig : Nat.digits 10 m = Nat.digits 10 n :=
    map_digitChar_inj _ _ (fun _ hdm => Nat.digits_lt_base (by norm_num) hdm)
      (fun _ hdn => Nat.digits_lt_base (by norm_num) hdn) hd
  have hm' := Nat.ofDigits_digits 10 m
  have hn' := Nat.ofDigits_digits 10 n
  rw [← hm', ← hn', hdig]

/-- Splitting a character list at a delimiter occurrence is unambiguous
when the part before the delimiter is delimiter-free. -/
theorem append_hash_inj :
    ∀ (a₁ r₁ a₂ r₂ : List Char),
      (∀ c ∈ a₁, c ≠ '#') → (∀ c ∈ a₂, c ≠ '#') →
      a₁ ++ '#' :: r₁ = a₂ ++ '#' :: r₂ → a₁ = a₂ ∧ r₁ = r₂
  | [], r₁, [], r₂, _, _, h => by simp_all
  | [], r₁, c :: a₂, r₂, _, h₂, h => by
    simp only [List.nil_append, List.cons_append, List.cons.injEq] at h
    exact absurd h.1.symm (h₂ c (by simp))
  | c :: a₁, r₁, [], r₂, h₁, _, h => by
    simp only [List.nil_append, List.cons_append, List.cons.injEq] at h
    exact absurd h.1 (h₁ c (by simp))
  | c₁ :: a₁, r₁, c₂ :: a₂, r₂, h₁, h₂, h => by
    simp only [List.cons_append, List.cons.injEq] at h
    have ih := append_hash_inj a₁ r₁ a₂ r₂ (fun c hc => h₁ c (by simp [hc]))
      (fun c hc => h₂ c (by simp [hc])) h.2
    exact ⟨by rw [h.1, ih.1], ih.2⟩

/-- Two generated ID strings with distinct positive serial components are
distinct, whatever the prefixes and clock readings are. -/
theorem uniqueID_string_ne (p₁ p₂ : String) (n₁ n₂ t₁ t₂ : Nat)
    (hn₁ : 0 < n₁) (hn₂ : 0 < n₂) (hne : n₁ ≠ n₂) :
    p₁ ++ "#" ++ Nat.repr n₁ ++ "#" ++ Nat.repr t₁ ≠
      p₂ ++ "#" ++ Nat.repr n₂ ++ "#" ++ Nat.repr t₂ := by
  intro h
  apply hne
  have hd := congrArg (fun s => s.data.reverse) h
  simp only [String.data_append, List.reverse_append, List.reverse_singleton,
    List.reverse_cons, List.reverse_nil, List.nil_append, List.append_assoc,
    List.singleton_append] at hd
  have ht₁ : ∀ c ∈ (Nat.repr t₁).data.reverse, c ≠ '#' := by
    intro c hc
    exact repr_data_ne_hash t₁ c (List.mem_reverse.mp hc)
  have ht₂ : ∀ c ∈ (Nat.repr t₂).data.reverse, c ≠ '#' := by
    intro c hc
    exact repr_data_ne_hash t₂ c (List.mem_reverse.mp hc)
  have step₁ := append_hash_inj _ _ _ _ ht₁ ht₂ hd
  have hn₁' : ∀ c ∈ (Nat.repr n₁).data.reverse, c ≠ '#' := by
    intro c hc
    exact repr_data_ne_hash n₁ c (List.mem_reverse.mp hc)
  have hn₂' : ∀ c ∈ (Nat.repr n₂).data.reverse, c ≠ '#' := by
    intro c hc
    exact repr_data_ne_hash n₂ c (List.mem_reverse.mp hc)
  have hmid := step₁.2
  simp only [List.append_eq, List.append_assoc, List.singleton_append] at hmid
  have step₂ := append_hash_inj _ _ _ _ hn₁' hn₂' hmid
  have hrn : Nat.repr n₁ = Nat.repr n₂ :=
    String.ext_iff.mpr (List.reverse_inj.mp step₂.1)
  exact repr_inj_pos hn₁ hn₂ hrn

/-- Last element of a cons, phrased with `Option.or` (proof helper). -/
theorem getLast?_cons_or {α : Type} (x : α) (l : List α) :
    (x :: l).getLast? = l.getLast?.or (some x) := by
  induction l generalizing x with
  | nil => rfl
  | cons y l ih =>
    rw [List.getLast?_cons_cons, ih y]
    cases l.getLast? <;> rfl

/-- Mapping distributes over `Option.or` (proof helper). -/
theorem optionMap_or {α β : Type} (o o' : Option α) (f : α → β) :
    (o.or o').map f = (o.map f).or (o'.map f) := by
  cases o <;> rfl

/-- The `_wrapParams` loop realizes last-occurrence-wins lookup: a key
reads the value of the last pair naming it, and falls back to the initial
object otherwise. -/
theorem wrapLoop_lookup :
    ∀ (l : List String) (m : JMap String) (k : String),
      (wrapLoop l m).lookup k =
        (((pairs l).filter (fun pr => pr.1 == k)).getLast?.map Prod.snd).or
          (m.lookup k)
  | [], m, k => by simp [wrapLoop, pairs]
  | [a], m, k => by simp [wrapLoop, pairs]
  | a :: b :: rest, m, k => by
    have ih := wrapLoop_lookup rest (m.set a b) k
    rw [show wrapLoop (a :: b :: rest) m = wrapLoop rest (m.set a b) from rfl, ih,
      JMap.lookup_set,
      show pairs (a :: b :: rest) = (a, b) :: pairs rest from rfl,
      List.filter_cons]
    by_cases hak : a = k
    · subst hak
      simp only [beq_self_eq_true, if_pos rfl, if_true]
      rw [getLast?_cons_or, optionMap_or, Option.or_assoc]
      rfl
    · have hbeq : ((a, b).1 == k) = false := by
        simp [hak]
      simp only [hbeq, if_neg hak, Bool.false_eq_true, if_false]

/-- C10: at every observable state of a `Requester` instance — any state
reachable from construction by dispatch registrations, transport
settlements (success or failure), `response`, `error`, ID generation and
option calls — the success cache and the failure cache hold exactly the
same set of identifier keys. -/
theorem claim10_cache_keys_aligned (V : Type) (ops : List (Op V)) :
    keysAligned (runOps ops (Requester.init V)) :=
  keysAligned_runOps ops (Requester.init V) (fun _ => rfl)

/-- C7 shows a divergence: `setOptions` with a null/absent argument does
not act as a pure getter — the source evaluates
`Object.keys(options).length` before its `options !== null` test, which
throws a `TypeError` for a null or absent argument (the state is left
unmutated, but no snapshot is returned). -/
theorem claim7_null_options_throws (V : Type) (s : Requester V) :
    Requester.setOptions none s = (.error .typeError, s) := rfl

/-- C6 shows a divergence: after `setOptions({})` has made `_options`
alias `_defaultOptions`, a later `setOptions({throwOnFailure: false})`
mutates the default object itself, so a final `setOptions({})` returns an
option set with `throwOnFailure = false` instead of restoring the
documented default `true`. -/
theorem claim6_reset_after_alias_not_default :
    (Requester.setOptions (some ([] : JMap Bool)) sOptTrace).1 =
      .ok [("throwOnFailure", false)] ∧
    ((Requester.setOptions (some ([] : JMap Bool)) sOptTrace).2).throwOnFailure =
      false :=
  ⟨rfl, rfl⟩

/-- C1 as stated is false on the code: in the concrete state holding a
completed successful entry under "x" (payload 42), the first retrieval
call made through the `error` accessor deletes nothing (it returns
`undefined` and leaves the state unchanged), and the second retrieval
call `response("x")` then returns the payload instead of failing with
`InvalidRequest`. -/
theorem claim1_counterexample :
    (Requester.error "x" sSucc).2 = sSucc ∧
    (Requester.response "x" (Requester.error "x" sSucc).2).1 = .ok (some 42) ∧
    (Requester.response "x" (Requester.error "x" sSucc).2).1 ≠
      Except.error JSError.invalidRequest :=
  ⟨rfl, rfl, fun h => Except.noConfusion h⟩

/-- C1 (amended): for an identifier holding a completed (terminal) entry,
the first retrieval call of the accessor matching the stored outcome
(`response` after a success, `error` after a failure) deletes the entry
from both the success and failure stores, so every subsequent retrieval
call of either accessor fails with `InvalidRequest`; the mismatched
accessor instead returns `undefined` and deletes nothing.  In particular
`response(id)` twice after a successful dispatch yields the payload then
`InvalidRequest`, and likewise `error(id)` twice after a failed one. -/
theorem claim1_matching_accessor_consumes_once
    (s : Requester V) (id : String) (v e : V)
    (hfl : s.inFlightRequests.contains id = false) :
    (s.cachedResponses.lookup id = some (some v) →
     s.cachedErrors.lookup id = some none →
       Requester.response id s =
         (.ok (some v),
          { s with cachedErrors := s.cachedErrors.del id,
                   cachedResponses := s.cachedResponses.del id }) ∧
       Requester.error id s = (.ok none, s) ∧
       (Requester.response id
          { s with cachedErrors := s.cachedErrors.del id,
                   cachedResponses := s.cachedResponses.del id }).1 =
         .error .invalidRequest ∧
       (Requester.error id
          { s with cachedErrors := s.cachedErrors.del id,
                   cachedResponses := s.cachedResponses.del id }).1 =
         .error .invalidRequest) ∧
    (s.cachedResponses.lookup id = some none →
     s.cachedErrors.lookup id = some (some e) →
       Requester.error id s =
         (.ok (some e),
          { s with cachedErrors := s.cachedErrors.del id,
                   cachedResponses := s.cachedResponses.del id }) ∧
       Requester.response id s = (.ok none, s) ∧
       (Requester.response id
          { s with cachedErrors := s.cachedErrors.del id,
                   cachedResponses := s.cachedResponses.del id }).1 =
         .error .invalidRequest ∧
       (Requester.error id
          { s with cachedErrors := s.cachedErrors.del id,
                   cachedResponses := s.cachedResponses.del id }).1 =
         .error .invalidRequest) := by
  constructor
  · intro h1 h2
    refine ⟨?_, ?_, ?_, ?_⟩ <;>
      simp [Requester.response, Requester.error, Requester.responseErrorChecker,
        JMap.contains, JMap.jsGet, JMap.lookup_del, Option.join, h1, h2,
        show (s.inFlightRequests.lookup id).isSome = false from hfl]
  · intro h1 h2
    refine ⟨?_, ?_, ?_, ?_⟩ <;>
      simp [Requester.response, Requester.error, Requester.responseErrorChecker,
        JMap.contains, JMap.jsGet, JMap.lookup_del, Option.join, h1, h2,
        show (s.inFlightRequests.lookup id).isSome = false from hfl]

/-- Witness for C1 (amended) at a concrete completed-success state. -/
theorem claim1_matching_accessor_consumes_once_witness :
    sSucc.inFlightRequests.contains "x" = false ∧
    sSucc.cachedResponses.lookup "x" = some (some 42) ∧
    sSucc.cachedErrors.lookup "x" = some none ∧
    Requester.response "x" sSucc =
      (.ok (some 42),
       { sSucc with cachedErrors := sSucc.cachedErrors.del "x",
                    cachedResponses := sSucc.cachedResponses.del "x" }) :=
  ⟨rfl, rfl, rfl,
    ((claim1_matching_accessor_consumes_once sSucc "x" 42 0 rfl).1 rfl rfl).1⟩

/-- C2: after a failed dispatch completed under `throwOnFailure=false`
(the dispatch call itself returns normally), `response(id)` returns
`undefined` and leaves the whole state — all three tables included —
unchanged, while `error(id)` (whether called first or after such a
`response` call) returns the stored failure value and deletes `id` from
both the success and failure tables. -/
theorem claim2_cross_consumption
    (s₀ : Requester V) (id : String) (e : V)
    (hfree₁ : s₀.cachedResponses.contains id = false)
    (hfree₂ : s₀.inFlightRequests.contains id = false)
    (hopt : s₀.throwOnFailure = false) :
    (Requester.requestRun id (.failure e) s₀).1 = .ok () ∧
    ∀ s₂, s₂ = (Requester.requestRun id (.failure e) s₀).2.1 →
      Requester.response id s₂ = (.ok none, s₂) ∧
      Requester.error id s₂ =
        (.ok (some e),
         { s₂ with cachedErrors := s₂.cachedErrors.del id,
                   cachedResponses := s₂.cachedResponses.del id }) ∧
      ((Requester.error id s₂).2).cachedResponses.contains id = false ∧
      ((Requester.error id s₂).2).cachedErrors.contains id = false := by
  have hpre : Requester.requestPre id s₀ =
      (.ok (), { s₀ with inFlightRequests := s₀.inFlightRequests.set id () }) := by
    simp [Requester.requestPre, JMap.contains] at *
    simp [Requester.requestPre, JMap.contains, hfree₁, hfree₂]
  have hrun : Requester.requestRun id (.failure e) s₀ =
      (.ok (),
       { s₀ with cachedResponses := s₀.cachedResponses.set id none,
                 cachedErrors := s₀.cachedErrors.set id (some e),
                 inFlightRequests := (s₀.inFlightRequests.set id ()).del id },
       1) := by
    simp only [Requester.requestRun, hpre, Requester.settle]
    rw [if_neg]
    simp only [Requester.throwOnFailure] at hopt ⊢
    simp [hopt]
  refine ⟨by rw [hrun], ?_⟩
  intro s₂ hs₂
  rw [hrun] at hs₂
  subst hs₂
  refine ⟨?_, ?_, ?_, ?_⟩ <;>
    simp [Requester.response, Requester.error, Requester.responseErrorChecker,
      JMap.contains, JMap.jsGet, JMap.lookup_del, JMap.lookup_set, Option.join]

/-- Witness for C2 on a fresh instance configured with
`setOptions({throwOnFailure: false})`. -/
theorem claim2_cross_consumption_witness :
    sNoThrow.cachedResponses.contains "y" = false ∧
    sNoThrow.inFlightRequests.contains "y" = false ∧
    sNoThrow.throwOnFailure = false ∧
    (Requester.requestRun "y" (.failure 7) sNoThrow).1 = .ok () :=
  ⟨rfl, rfl, rfl, (claim2_cross_consumption sNoThrow "y" 7 rfl rfl rfl).1⟩

/-- C3: a dispatch (through `_request` or a per-verb entry point with a
well-formed parameter list) under an identifier present in the in-flight
table or in the completed-success table — which includes an unretrieved
failure, stored as a marker key in the success table — throws `IDInUse`
and modifies no table; in particular a second dispatch of the same
identifier before the first settles throws `IDInUse` and changes
nothing. -/
theorem claim3_id_in_use (s : Requester V) (id _url : String)
    (params : List String) :
    ((s.cachedResponses.contains id || s.inFlightRequests.contains id) = true →
      Requester.requestPre id s = (.error .idInUse, s) ∧
      (params.length % 2 = 0 →
        Requester.getPre _url id params s = (.error .idInUse, s))) ∧
    ((s.cachedResponses.contains id || s.inFlightRequests.contains id) = false →
      (Requester.requestPre id ((Requester.requestPre id s).2)).1 =
        .error .idInUse ∧
      (Requester.requestPre id ((Requester.requestPre id s).2)).2 =
        (Requester.requestPre id s).2) := by
  constructor
  · intro hin
    have h₁ : Requester.requestPre id s = (.error .idInUse, s) := by
      simp [Requester.requestPre, hin]
    refine ⟨h₁, ?_⟩
    intro heven
    have hodd : (params.length % 2 != 0) = false := by simp [heven]
    simp [Requester.getPre, Requester.wrapParams, hodd, h₁]
  · intro hfree
    have h₁ : (Requester.requestPre id s).2 =
        { s with inFlightRequests := s.inFlightRequests.set id () } := by
      simp [Requester.requestPre, hfree]
    rw [h₁]
    constructor <;>
      simp [Requester.requestPre, JMap.contains, JMap.lookup_set]

/-- Witness for C3: an in-flight identifier is rejected, and a fresh
identifier dispatched twice is rejected the second time. -/
theorem claim3_id_in_use_witness :
    ((sInFlight.cachedResponses.contains "x" ||
        sInFlight.inFlightRequests.contains "x") = true ∧
     Requester.requestPre "x" sInFlight = (.error .idInUse, sInFlight) ∧
     Requester.getPre "u" "x" [] sInFlight = (.error .idInUse, sInFlight)) ∧
    (((Requester.init Nat).cachedResponses.contains "x" ||
        (Requester.init Nat).inFlightRequests.contains "x") = false ∧
     (Requester.requestPre "x"
        ((Requester.requestPre "x" (Requester.init Nat)).2)).1 =
       .error .idInUse) :=
  ⟨⟨rfl, ((claim3_id_in_use sInFlight "x" "u" []).1 rfl).1,
    ((claim3_id_in_use sInFlight "x" "u" []).1 rfl).2 rfl⟩,
   ⟨rfl, ((claim3_id_in_use (Requester.init Nat) "x" "u" []).2 rfl).1⟩⟩

/-- C4: both accessors apply the identical precondition check — an
in-flight identifier fails with `RequestNotComplete`, and an identifier
in neither the in-flight table nor the success table fails with
`InvalidRequest` — and in both failure cases the state is untouched. -/
theorem claim4_shared_precondition_check (s : Requester V) (id : String) :
    (s.inFlightRequests.contains id = true →
      Requester.response id s = (.error .requestNotComplete, s) ∧
      Requester.error id s = (.error .requestNotComplete, s)) ∧
    (s.inFlightRequests.contains id = false →
     s.cachedResponses.contains id = false →
      Requester.response id s = (.error .invalidRequest, s) ∧
      Requester.error id s = (.error .invalidRequest, s)) := by
  constructor
  · intro hin
    constructor <;>
      simp [Requester.response, Requester.error,
        Requester.responseErrorChecker, hin]
  · intro hni hnr
    constructor <;>
      simp [Requester.response, Requester.error,
        Requester.responseErrorChecker, hni, hnr]

/-- Witness for C4: retrieval on an in-flight identifier and retrieval on
a never-dispatched identifier. -/
theorem claim4_shared_precondition_check_witness :
    (sInFlight.inFlightRequests.contains "x" = true ∧
     Requester.response "x" sInFlight = (.error .requestNotComplete, sInFlight)) ∧
    ((Requester.init Nat).inFlightRequests.contains "q" = false ∧
     (Requester.init Nat).cachedResponses.contains "q" = false ∧
     Requester.error "q" (Requester.init Nat) =
       (.error .invalidRequest, Requester.init Nat)) :=
  ⟨⟨rfl, ((claim4_shared_precondition_check sInFlight "x").1 rfl).1⟩,
   ⟨rfl, rfl,
    ((claim4_shared_precondition_check (Requester.init Nat) "q").2 rfl rfl).2⟩⟩

/-- C5: when the transport fails under `throwOnFailure = true`, the
awaiting dispatch call itself fails with the transport's failure, the
in-flight delete statement runs exactly once, and the terminal state is
still recorded — the "no payload" marker sits under `id` in the success
table, the failure value under `id` in the failure table, `id` is gone
from the in-flight table — so a later `error(id)` returns the failure
value exactly once. -/
theorem claim5_throw_still_records (s₀ : Requester V) (id : String) (e : V)
    (hfree₁ : s₀.cachedResponses.contains id = false)
    (hfree₂ : s₀.inFlightRequests.contains id = false)
    (hopt : s₀.throwOnFailure = true) :
    (Requester.requestRun id (.failure e) s₀).1 = .error (.transport e) ∧
    (Requester.requestRun id (.failure e) s₀).2.2 = 1 ∧
    ∀ s₂, s₂ = (Requester.requestRun id (.failure e) s₀).2.1 →
      s₂.cachedResponses.lookup id = some none ∧
      s₂.cachedErrors.lookup id = some (some e) ∧
      s₂.inFlightRequests.contains id = false ∧
      (Requester.error id s₂).1 = .ok (some e) ∧
      (Requester.error id ((Requester.error id s₂).2)).1 =
        .error .invalidRequest := by
  have hpre : Requester.requestPre id s₀ =
      (.ok (), { s₀ with inFlightRequests := s₀.inFlightRequests.set id () }) := by
    simp [Requester.requestPre, hfree₁, hfree₂]
  have hrun : Requester.requestRun id (.failure e) s₀ =
      (.error (.transport e),
       { s₀ with cachedResponses := s₀.cachedResponses.set id none,
                 cachedErrors := s₀.cachedErrors.set id (some e),
                 inFlightRequests := (s₀.inFlightRequests.set id ()).del id },
       1) := by
    simp only [Requester.requestRun, hpre, Requester.settle,
      Requester.throwOnFailure] at hopt ⊢
    simp [hopt]
  refine ⟨by rw [hrun], by rw [hrun], ?_⟩
  intro s₂ hs₂
  rw [hrun] at hs₂
  subst hs₂
  refine ⟨?_, ?_, ?_, ?_, ?_⟩ <;>
    simp [Requester.response, Requester.error, Requester.responseErrorChecker,
      JMap.contains, JMap.jsGet, JMap.lookup_del, JMap.lookup_set, Option.join]

/-- Witness for C5 on a fresh instance (default options have
`throwOnFailure = true`). -/
theorem claim5_throw_still_records_witness :
    (Requester.init Nat).cachedResponses.contains "z" = false ∧
    (Requester.init Nat).inFlightRequests.contains "z" = false ∧
    (Requester.init Nat).throwOnFailure = true ∧
    (Requester.requestRun "z" (.failure 9) (Requester.init Nat)).1 =
      .error (.transport 9) :=
  ⟨rfl, rfl, rfl,
    (claim5_throw_still_records (Requester.init Nat) "z" 9 rfl rfl rfl).1⟩

/-- C8: two `createUniqueID` calls made at different counter values —
which is the case for any two distinct calls on one instance, since each
call bumps the counter and no operation ever lowers it — return distinct
strings regardless of prefixes and of repeated clock readings; the only
state change of a call is the counter increment, and the call never
fails (it is total and always returns a string). -/
theorem claim8_unique_id_generation (V : Type) :
    (∀ (s s' : Requester V) (p₁ p₂ : String) (t₁ t₂ : Nat),
      s.idSerialNumber ≠ s'.idSerialNumber →
      (Requester.createUniqueID p₁ t₁ s).1 ≠
        (Requester.createUniqueID p₂ t₂ s').1) ∧
    (∀ (s : Requester V) (p : String) (t : Nat),
      (Requester.createUniqueID p t s).2 =
        { s with idSerialNumber := s.idSerialNumber + 1 }) ∧
    (∀ (s : Requester V) (op : Op V),
      s.idSerialNumber ≤ (applyOp op s).idSerialNumber) := by
  refine ⟨?_, fun s p t => rfl, fun s op => idSerialNumber_mono op s⟩
  intro s s' p₁ p₂ t₁ t₂ hne
  exact uniqueID_string_ne p₁ p₂ (s.idSerialNumber + 1) (s'.idSerialNumber + 1)
    t₁ t₂ (Nat.succ_pos _) (Nat.succ_pos _) (by omega)

/-- Witness for C8: two consecutive calls with the same prefix and the
same clock reading still differ. -/
theorem claim8_unique_id_generation_witness :
    (Requester.init Nat).idSerialNumber ≠
      ((Requester.createUniqueID "a" 5 (Requester.init Nat)).2).idSerialNumber ∧
    (Requester.createUniqueID "a" 5 (Requester.init Nat)).1 ≠
      (Requester.createUniqueID "a" 5
        ((Requester.createUniqueID "a" 5 (Requester.init Nat)).2)).1 :=
  ⟨by decide,
   (claim8_unique_id_generation Nat).1 (Requester.init Nat)
     ((Requester.createUniqueID "a" 5 (Requester.init Nat)).2) "a" "a" 5 5
     (by decide)⟩

/-- C9: an odd-length flat token list makes the per-verb entry point fail
with `UnbalancedParameters` before any dispatch, leaving the state
untouched; an even-length list normalizes to the params object whose
lookup of each name yields the value token following its last
occurrence. -/
theorem claim9_param_normalization (params : List String) (_url id : String)
    (s : Requester V) :
    (params.length % 2 = 1 →
      Requester.getPre _url id params s = (.error .unbalancedParameters, s)) ∧
    (params.length % 2 = 0 →
      Requester.wrapParams V params = .ok (wrapLoop params []) ∧
      ∀ k, (wrapLoop params []).lookup k =
        ((pairs params).filter (fun pr => pr.1 == k)).getLast?.map Prod.snd) := by
  constructor
  · intro hodd
    have h : (params.length % 2 != 0) = true := by simp [hodd]
    simp [Requester.getPre, Requester.wrapParams, h]
  · intro heven
    have h : (params.length % 2 != 0) = false := by simp [heven]
    refine ⟨by simp [Requester.wrapParams, h], ?_⟩
    intro k
    have hwl := wrapLoop_lookup params [] k
    simpa [JMap.lookup] using hwl

/-- Witness for C9: the documented examples — an odd list fails, an even
list with a repeated name keeps the last value. -/
theorem claim9_param_normalization_witness :
    (["a", "1", "b"].length % 2 = 1 ∧
     Requester.getPre "u" "w" ["a", "1", "b"] (Requester.init Nat) =
       (.error .unbalancedParameters, Requester.init Nat)) ∧
    (["a", "1", "b", "2", "a", "3"].length % 2 = 0 ∧
     Requester.wrapParams Nat ["a", "1", "b", "2", "a", "3"] =
       .ok (wrapLoop ["a", "1", "b", "2", "a", "3"] []) ∧
     (wrapLoop ["a", "1", "b", "2", "a", "3"] []).lookup "a" =
       ((pairs ["a", "1", "b", "2", "a", "3"]).filter
         (fun pr => pr.1 == "a")).getLast?.map Prod.snd) :=
  ⟨⟨rfl,
    (claim9_param_normalization ["a", "1", "b"] "u" "w"
      (Requester.init Nat)).1 rfl⟩,
   ⟨rfl,
    ((claim9_param_normalization ["a", "1", "b", "2", "a", "3"] "u" "w"
      (Requester.init Nat)).2 rfl).1,
    ((claim9_param_normalization ["a", "1", "b", "2", "a", "3"] "u" "w"
      (Requester.init Nat)).2 rfl).2 "a"⟩⟩
